import Mathlib

/-!
Shallow embedding of the two programs in this repository:
`ai-agent.py` (conversational LLM tool-calling variant) and
`traditional.py` (interactive menu variant).  Both manage events on a
Google Calendar through a whitelist-gated gateway function
`calendar_api_call`.

Python values passing through JSON boundaries are modelled by `JValue`;
interaction with the outside world (credential files, the OAuth flow,
the remote calendar service) is modelled by oracles whose fallible steps
return `Except String _` — a raised Python exception is the `.error`
case carrying `str(e)`.  Side effects relevant to the claims
(credential access, network calls) are recorded in an explicit trace.
-/

/-- Model of a decoded JSON / Python value as it flows through the two
programs: `None`, booleans, integers, strings, lists and dicts. -/
inductive JValue where
  | null
  | bool (b : Bool)
  | num (n : Int)
  | str (s : String)
  | arr (xs : List JValue)
  | obj (kvs : List (String × JValue))

/-- Escape a string for JSON output (the strings appearing in this
development contain no control characters, so quote and backslash
escaping suffices, as in `json.dumps` for such strings). -/
def jsEscape (s : String) : String :=
  ⟨s.data.foldr
    (fun c acc =>
      (if c = '\\' then ['\\', '\\']
       else if c = '"' then ['\\', '"']
       else [c]) ++ acc) []⟩

/-- Model of Python `str.strip()` with no argument: remove leading and
trailing whitespace. -/
def pyStrip (s : String) : String :=
  ⟨((s.data.dropWhile Char.isWhitespace).reverse.dropWhile Char.isWhitespace).reverse⟩

def splitCharAux (sep : Char) : List Char → List Char → List (List Char)
  | [], acc => [acc.reverse]
  | c :: cs, acc =>
    if c == sep then acc.reverse :: splitCharAux sep cs []
    else splitCharAux sep cs (c :: acc)

/-- Model of Python `str.split(sep)` for a one-character separator:
every occurrence of the separator starts a new (possibly empty)
field. -/
def pySplit (s : String) (sep : Char) : List String :=
  (splitCharAux sep s.data []).map (fun l => ⟨l⟩)

mutual

/-- Model of `json.dumps` with its default separators. -/
def dumps : JValue → String
  | .null => "null"
  | .bool true => "true"
  | .bool false => "false"
  | .num n => toString n
  | .str s => "\"" ++ jsEscape s ++ "\""
  | .arr xs => "[" ++ dumpsArr xs ++ "]"
  | .obj kvs => "\x7b" ++ dumpsObj kvs ++ "\x7d"

def dumpsArr : List JValue → String
  | [] => ""
  | [x] => dumps x
  | x :: xs => dumps x ++ ", " ++ dumpsArr xs

def dumpsObj : List (String × JValue) → String
  | [] => ""
  | [(k, v)] => "\"" ++ jsEscape k ++ "\": " ++ dumps v
  | (k, v) :: kvs => "\"" ++ jsEscape k ++ "\": " ++ dumps v ++ ", " ++ dumpsObj kvs

end

/-- Python truthiness of a `JValue` (`if not items: ...`). -/
def jTruthy : JValue → Bool
  | .null => false
  | .bool b => b
  | .num n => n != 0
  | .str s => s != ""
  | .arr xs => !xs.isEmpty
  | .obj kvs => !kvs.isEmpty

/-- Dict key lookup: `some v` when the value is a dict holding the key,
`none` otherwise. -/
def jLookup : JValue → String → Option JValue
  | .obj kvs, k => (kvs.find? (fun kv => kv.1 == k)).map (fun kv => kv.2)
  | _, _ => none

/-- Model of `d.get(key, default)` on a dict. -/
def jGetD (v : JValue) (k : String) (dflt : JValue) : JValue :=
  match jLookup v k with
  | some w => w
  | none => dflt

mutual

/-- Model of Python `repr` as used by f-string interpolation of a dict
(single-quoted strings, `True`/`False`/`None`). -/
def pyRepr : JValue → String
  | .null => "None"
  | .bool true => "True"
  | .bool false => "False"
  | .num n => toString n
  | .str s => "\x27" ++ s ++ "\x27"
  | .arr xs => "[" ++ pyReprArr xs ++ "]"
  | .obj kvs => "\x7b" ++ pyReprObj kvs ++ "\x7d"

def pyReprArr : List JValue → String
  | [] => ""
  | [x] => pyRepr x
  | x :: xs => pyRepr x ++ ", " ++ pyReprArr xs

def pyReprObj : List (String × JValue) → String
  | [] => ""
  | [(k, v)] => "\x27" ++ k ++ "\x27: " ++ pyRepr v
  | (k, v) :: kvs => "\x27" ++ k ++ "\x27: " ++ pyRepr v ++ ", " ++ pyReprObj kvs

end

/-- Model of Python `str()` on a `JValue` (used by f-string
interpolation of a single value). -/
def jPyStr : JValue → String
  | .str s => s
  | v => pyRepr v

/-- The error dict `\x7b"error": msg\x7d` both gateways return. -/
def errDict (msg : String) : JValue :=
  JValue.obj [("error", JValue.str msg)]

/-- Externally observable side effects of a gateway invocation:
touching the credential store (`get_calendar_service`) and issuing a
network request to the calendar service. -/
inductive Eff where
  | credAccess
  | netCall (resource method : String) (params : List (String × JValue))

/-! ## Model of Python `datetime` as used by `traditional.py`

Only whole minutes ever arise (dates at midnight from `prompt_date`,
`HH:MM` start times in `insert_event`), so a moment is a calendar date
plus hour and minute; seconds are always zero and `isoformat` renders
them as `:00`.  Python `datetime` is bounded: years run from 1
(`MINYEAR`) to 9999 (`MAXYEAR`) and adding a `timedelta` that leaves
this range raises `OverflowError`, which the checked arithmetic below
reflects by returning `none`. -/

structure Date where
  year : Nat
  month : Nat
  day : Nat
deriving DecidableEq

structure DateTime where
  date : Date
  hour : Nat
  minute : Nat
deriving DecidableEq

def isLeap (y : Nat) : Bool :=
  (y % 4 == 0 && y % 100 != 0) || y % 400 == 0

def daysInMonth (y m : Nat) : Nat :=
  if m == 2 then (if isLeap y then 29 else 28)
  else if m == 4 || m == 6 || m == 9 || m == 11 then 30
  else 31

/-- The dates Python `datetime.date` can represent. -/
def validDate (d : Date) : Bool :=
  1 ≤ d.year && d.year ≤ 9999 && 1 ≤ d.month && d.month ≤ 12 &&
    1 ≤ d.day && d.day ≤ daysInMonth d.year d.month

/-- Calendar successor of a date (unbounded). -/
def Date.next (d : Date) : Date :=
  if d.day < daysInMonth d.year d.month then ⟨d.year, d.month, d.day + 1⟩
  else if d.month < 12 then ⟨d.year, d.month + 1, 1⟩
  else ⟨d.year + 1, 1, 1⟩

/-- Model of `dt + timedelta(days=1)`: `none` is the `OverflowError`
raised when the result would pass `datetime.max`. -/
def addOneDay (dt : DateTime) : Option DateTime :=
  let nd := dt.date.next
  if nd.year ≤ 9999 then some ⟨nd, dt.hour, dt.minute⟩ else none

/-- Model of `dt + timedelta(hours=1)`: `none` is the `OverflowError`
raised when the result would pass `datetime.max`. -/
def addOneHour (dt : DateTime) : Option DateTime :=
  if dt.hour + 1 ≤ 23 then some ⟨dt.date, dt.hour + 1, dt.minute⟩
  else
    let nd := dt.date.next
    if nd.year ≤ 9999 then some ⟨nd, 0, dt.minute⟩ else none

def pad2 (n : Nat) : String :=
  if n < 10 then "0" ++ toString n else toString n

def pad4 (n : Nat) : String :=
  if n < 10 then "000" ++ toString n
  else if n < 100 then "00" ++ toString n
  else if n < 1000 then "0" ++ toString n
  else toString n

/-- `str(d)` / `d.isoformat()` for a `datetime.date`. -/
def renderDate (d : Date) : String :=
  pad4 d.year ++ "-" ++ pad2 d.month ++ "-" ++ pad2 d.day

/-- `dt.isoformat()` for a UTC-aware datetime with zero seconds. -/
def isoformat (dt : DateTime) : String :=
  renderDate dt.date ++ "T" ++ pad2 dt.hour ++ ":" ++ pad2 dt.minute ++ ":00+00:00"

def digitVal (c : Char) : Nat := c.toNat - 48

/-- Model of `datetime.fromisoformat` restricted to the `YYYY-MM-DD`
shape the menu's date prompt feeds it (the regex gate guarantees that
shape); `none` is the `ValueError` on an out-of-range component. -/
def parseDate (s : String) : Option Date :=
  match s.toList with
  | [a, b, c, d, '-', e, f, '-', g, h] =>
    if [a, b, c, d, e, f, g, h].all Char.isDigit then
      let y := 1000 * digitVal a + 100 * digitVal b + 10 * digitVal c + digitVal d
      let mo := 10 * digitVal e + digitVal f
      let dy := 10 * digitVal g + digitVal h
      if validDate ⟨y, mo, dy⟩ then some ⟨y, mo, dy⟩ else none
    else none
  | _ => none

/-- Model of `datetime.fromisoformat` on the combined
`YYYY-MM-DDTHH:MM` string `insert_event` builds from the user's date
and start-time answers (the canonical shape; any other input is the
`ValueError` case `none`). -/
def parseDateTime (s : String) : Option DateTime :=
  match s.toList with
  | [a, b, c, d, '-', e, f, '-', g, h, 'T', p, q, ':', r, t] =>
    if [a, b, c, d, e, f, g, h, p, q, r, t].all Char.isDigit then
      let y := 1000 * digitVal a + 100 * digitVal b + 10 * digitVal c + digitVal d
      let mo := 10 * digitVal e + digitVal f
      let dy := 10 * digitVal g + digitVal h
      let hh := 10 * digitVal p + digitVal q
      let mi := 10 * digitVal r + digitVal t
      if validDate ⟨y, mo, dy⟩ && hh ≤ 23 && mi ≤ 59 then
        some ⟨⟨y, mo, dy⟩, hh, mi⟩
      else none
    else none
  | _ => none

/-! ## Credential Store (`get_calendar_service`, both files)

`get_calendar_service` is textually identical in `ai-agent.py` and
`traditional.py` except for the arguments passed to
`flow.run_local_server` (the port and the consent prompt), which live
inside the oracle's `interactiveFlow` step.  The function body has no
try/except: every exception raised by a step propagates to the caller,
which the `Except` plumbing below mirrors step by step. -/

/-- The fields of a loaded `google.oauth2.credentials.Credentials`
object that the branch conditions of `get_calendar_service` read.
A loaded credentials object is truthy in Python, so `creds and ...`
reduces to testing the fields. -/
structure Creds where
  valid : Bool
  expired : Bool
  refresh_token : Bool
deriving DecidableEq

/-- Oracle for the external collaborators of `get_calendar_service`.
Each `Except String _` is a fallible library call whose `.error` case
is a raised exception carrying `str(e)`. -/
structure AuthOracle where
  /-- `os.path.exists(GOOGLE_TOKEN_FILE)` -/
  tokenFileExists : Bool
  /-- `Credentials.from_authorized_user_file(...)` -/
  loadFile : Except String Creds
  /-- `creds.refresh(Request())` -/
  refreshStep : Creds → Except String Creds
  /-- `InstalledAppFlow.from_client_secrets_file(...)` followed by
  `flow.run_local_server(...)`: the interactive consent flow, whose
  network or user-denial failures surface here as `.error`. -/
  interactiveFlow : Except String Creds
  /-- `_save_credentials(creds)`: the token-file write. -/
  saveCreds : Creds → Except String Unit
  /-- `build("calendar", "v3", credentials=creds)` -/
  buildService : Except String Unit

/-- Embedding of `get_calendar_service` (present identically in both
files).  The returned service client carries no information the rest
of the model reads, so success is `Unit`. -/
def get_calendar_service (o : AuthOracle) : Except String Unit :=
  let loaded : Except String (Option Creds) :=
    if o.tokenFileExists then
      match o.loadFile with
      | .error e => .error e
      | .ok c => .ok (some c)
    else .ok none
  match loaded with
  | .error e => .error e
  | .ok optCreds =>
    match optCreds with
    | some c =>
      if c.valid then o.buildService
      else if c.expired && c.refresh_token then
        match o.refreshStep c with
        | .error e => .error e
        | .ok c2 =>
          match o.saveCreds c2 with
          | .error e => .error e
          | .ok _ => o.buildService
      else
        match o.interactiveFlow with
        | .error e => .error e
        | .ok c2 =>
          match o.saveCreds c2 with
          | .error e => .error e
          | .ok _ => o.buildService
    | none =>
      match o.interactiveFlow with
      | .error e => .error e
      | .ok c2 =>
        match o.saveCreds c2 with
        | .error e => .error e
        | .ok _ => o.buildService

/-- Oracle for one gateway invocation: the credential-store world plus
the remote calendar service.  `execute` models the
`getattr(getattr(service, resource)(), method)(**params).execute()`
chain — any exception it raises (attribute lookup, request build,
HTTP error) is its `.error` case. -/
structure Oracle where
  auth : AuthOracle
  execute : String → String → List (String × JValue) → Except String JValue

namespace AiAgent

/-! ## `ai-agent.py`: Calendar Gateway and Dispatcher -/

def ALLOWED_RESOURCES : List String := ["events"]
def ALLOWED_METHODS : List String := ["list", "insert", "update", "delete"]

/-- Embedding of `calendar_api_call` from `ai-agent.py`.  Alongside the
returned value it yields the trace of external side effects, so that
"no credential access and no network call" is expressible.  The
`try/except Exception` block is the pair of `match`es on the oracle's
fallible steps: a `.error e` becomes the returned `errDict e`.  A
non-dict `params` makes `**params` raise `TypeError` inside the same
`try`, hence is also caught into an error dict. -/
def calendar_api_call (o : Oracle) (resource method : String) (params : JValue) :
    JValue × List Eff :=
  if !(ALLOWED_RESOURCES.contains resource) || !(ALLOWED_METHODS.contains method) then
    (errDict "Method or resource not allowed.", [])
  else
    match get_calendar_service o.auth with
    | .error e => (errDict e, [.credAccess])
    | .ok _ =>
      match params with
      | .obj kw =>
        match o.execute resource method kw with
        | .error e => (errDict e, [.credAccess, .netCall resource method kw])
        | .ok v => (v, [.credAccess, .netCall resource method kw])
      | _ => (errDict "params is not a mapping", [.credAccess])

/-- Raised Python exceptions that reach the driver uncaught. -/
inductive PyErr where
  | typeError (msg : String)
  | indexError
deriving DecidableEq

/-- Model of the keyword expansion `calendar_api_call(**args)`: the
call binds iff the keys are exactly `resource`, `method`, `params`
(each exactly once); otherwise Python raises `TypeError` before the
function body runs. -/
def expandCalendarKwargs (args : List (String × JValue)) :
    Except PyErr (JValue × JValue × JValue) :=
  let keys := args.map (fun kv => kv.1)
  match keys.find? (fun k => !(["resource", "method", "params"].contains k)) with
  | some k =>
    .error (.typeError ("calendar_api_call() got an unexpected keyword argument \x27"
      ++ k ++ "\x27"))
  | none =>
    if keys.count "resource" ≥ 2 || keys.count "method" ≥ 2 || keys.count "params" ≥ 2 then
      .error (.typeError "calendar_api_call() got multiple values for an argument")
    else
      match jLookup (.obj args) "resource", jLookup (.obj args) "method",
          jLookup (.obj args) "params" with
      | some r, some m, some p => .ok (r, m, p)
      | _, _, _ =>
        .error (.typeError "calendar_api_call() missing required positional arguments")

/-- Embedding of `call_function` from `ai-agent.py`.  The `.error`
result is an exception escaping to the caller: the keyword expansion
`calendar_api_call(**args)` happens outside any try/except.  A
non-string `resource` or `method` value is never a member of the
whitelist sets, so it lands in the rejection branch exactly as the
Python membership test does. -/
def call_function (o : Oracle) (name : String) (args : List (String × JValue)) :
    Except PyErr (JValue × List Eff) :=
  if name == "calendar_api_call" then
    match expandCalendarKwargs args with
    | .error e => .error e
    | .ok (r, m, p) =>
      match r, m with
      | .str rs, .str ms => .ok (calendar_api_call o rs ms p)
      | _, _ => .ok (errDict "Method or resource not allowed.", [])
  else
    .ok (errDict ("Function \x27" ++ name ++ "\x27 not implemented."), [])

/-! ## `ai-agent.py`: Conversational Driver (`process_response`) -/

/-- The `function` field of a tool call in a ChatCompletion reply.
`arguments` carries the mapping decoded by
`json.loads(call.function.arguments or "\x7b\x7d")`; the claims under
study all involve well-formed object arguments, so the embedding works
with the decoded form. -/
structure FunctionSpec where
  name : String
  arguments : List (String × JValue)

/-- One entry of `message.tool_calls`. -/
structure ToolCall where
  id : String
  function : FunctionSpec

/-- The message inside one choice of a ChatCompletion response.  The
`hasattr(message, "tool_calls")` test is always true for this shape;
the Python truthiness test on `message.tool_calls` (None or empty list
falsy) is non-emptiness of the list. -/
structure RespMessage where
  role : String
  content : Option String
  tool_calls : List ToolCall

structure Choice where
  message : RespMessage

structure Response where
  choices : List Choice

/-- Messages appended to the global `input_messages` history.  Each
constructor is one of the dict shapes the program builds. -/
inductive Msg where
  | system (content : String)
  | user (content : String)
  /-- `\x7b"role": "assistant", "content": "", "tool_calls": ...\x7d` -/
  | assistantCall (content : String) (tool_calls : List ToolCall)
  /-- `\x7b"role": "tool", "tool_name": ..., "tool_call_id": ...,
  "content": ...\x7d` -/
  | toolResult (tool_name : String) (tool_call_id : String) (content : String)

/-- The loop `for choice in response.choices` returns on the first
choice whose message is an assistant message with a truthy
`tool_calls`; this is that first matching choice. -/
def findToolChoice (resp : Response) : Option Choice :=
  resp.choices.find?
    (fun c => c.message.role == "assistant" && !c.message.tool_calls.isEmpty)

/-- Possible outcomes of a `process_response` run. -/
inductive DriverResult where
  | final (text : String) (hist : List Msg) (effs : List Eff)
  /-- the model's reply requested another tool call but the scripted
  sequence of model replies is exhausted -/
  | outOfScript (hist : List Msg) (effs : List Eff)
  /-- an exception escaped the driver uncaught -/
  | pyError (e : PyErr)

/-- Embedding of `process_response` from `ai-agent.py`.  The global
mutable `input_messages` list becomes the explicit `hist` argument;
each `client.chat.completions.create` call consumes the head of
`script`, the scripted sequence of model replies, on which the Python
recursion becomes structural recursion.  `effs` accumulates the
gateway side effects of the dispatched tool calls.  Python indexes
`response.choices[0]` unconditionally at the final return, so an empty
`choices` list is an uncaught `IndexError`. -/
def process_response (o : Oracle) :
    Response → List Msg → List Eff → List Response → DriverResult
  | resp, hist, effs, script =>
    match findToolChoice resp with
    | some c =>
      match c.message.tool_calls with
      | [] => .pyError .indexError
      | call :: _ =>
        match AiAgent.call_function o call.function.name call.function.arguments with
        | .error e => .pyError e
        | .ok (result, newEffs) =>
          let hist2 := hist ++
            [Msg.assistantCall "" c.message.tool_calls,
             Msg.toolResult call.function.name call.id (dumps result)]
          match script with
          | [] => .outOfScript hist2 (effs ++ newEffs)
          | r2 :: rest => process_response o r2 hist2 (effs ++ newEffs) rest
    | none =>
      match resp.choices with
      | [] => .pyError .indexError
      | ch :: _ => .final (ch.message.content.getD "") hist effs

end AiAgent

namespace Traditional

/-! ## `traditional.py`: gateway, input validation, menu operations

User interaction (`input(...)`) is modelled by a script: a list of the
strings the user will type, consumed in order.  A prompt loop that
would block forever waiting for further input returns `none` when the
script runs out. -/

def ALLOWED_METHODS : List String := ["list", "insert"]
def ALLOWED_RESOURCES : List String := ["events"]

/-- Embedding of `calendar_api_call` from `traditional.py` — the same
body as the one in `ai-agent.py`, against this file's narrower
`ALLOWED_METHODS`. -/
def calendar_api_call (o : Oracle) (resource method : String) (params : JValue) :
    JValue × List Eff :=
  if !(ALLOWED_RESOURCES.contains resource) || !(ALLOWED_METHODS.contains method) then
    (errDict "Method or resource not allowed.", [])
  else
    match get_calendar_service o.auth with
    | .error e => (errDict e, [.credAccess])
    | .ok _ =>
      match params with
      | .obj kw =>
        match o.execute resource method kw with
        | .error e => (errDict e, [.credAccess, .netCall resource method kw])
        | .ok v => (v, [.credAccess, .netCall resource method kw])
      | _ => (errDict "params is not a mapping", [.credAccess])

/-- `DATE_REGEX.match(s)` for the anchored pattern
`^\d\x7b4\x7d-\d\x7b2\x7d-\d\x7b2\x7d$` on an already-stripped string:
exactly `DDDD-DD-DD` with decimal digits. -/
def dateRegexMatch (s : String) : Bool :=
  match s.toList with
  | [a, b, c, d, e, f, g, h, i, j] =>
    a.isDigit && b.isDigit && c.isDigit && d.isDigit && e == '-' &&
      f.isDigit && g.isDigit && h == '-' && i.isDigit && j.isDigit
  | _ => false

/-- `EMAIL_REGEX.match(s)` for the anchored pattern
`^[^@]+@[^@]+\.[^@]+$`: the string splits at its only `@` into a
nonempty local part and a domain containing a `.` that is neither its
first nor its last character (the two `[^@]+` around the dot absorb
everything else, dots included). -/
def emailRegexMatch (s : String) : Bool :=
  match pySplit s '@' with
  | [localPart, domain] =>
    localPart != "" && ((domain.toList.drop 1).dropLast).contains '.'
  | _ => false

/-- Embedding of `prompt_date`: consume script entries until one both
matches `DATE_REGEX` and parses as a real date, logging and
reprompting otherwise; the result is that date at midnight with
`tzinfo` replaced by UTC, plus the unconsumed script. -/
def prompt_date : List String → Option (DateTime × List String)
  | [] => none
  | s :: rest =>
    let s := pyStrip s
    if dateRegexMatch s then
      match parseDate s with
      | some d => some (⟨d, 0, 0⟩, rest)
      | none => prompt_date rest
    else prompt_date rest

/-- The attendee dict `\x7b"email": e\x7d`. -/
def mkAttendee (e : String) : JValue :=
  JValue.obj [("email", JValue.str e)]

/-- Embedding of `prompt_emails`: a blank answer yields `[]`; a
comma-separated answer whose stripped entries all match `EMAIL_REGEX`
yields their attendee dicts in order; otherwise log and reprompt on
the rest of the script. -/
def prompt_emails : List String → Option (List JValue × List String)
  | [] => none
  | raw0 :: rest =>
    let raw := pyStrip raw0
    if raw == "" then some ([], rest)
    else
      let parts := (pySplit raw ',').map pyStrip
      if parts.all emailRegexMatch then
        some (parts.map mkAttendee, rest)
      else prompt_emails rest

/-- Outcome marker of a menu operation run. -/
inductive RunOutcome where
  | done
  /-- an exception escaped the operation uncaught (the menu loop has
  no try/except around it) -/
  | pyError
deriving DecidableEq

/-- Log lines and gateway side effects of one menu operation. -/
structure MenuRun where
  outcome : RunOutcome
  logs : List String
  effs : List Eff

/-- Render of the ` • \x7bst\x7d — \x7bsummary\x7d` line for one item
of a `list` result; `none` is the uncaught `KeyError` of `ev["start"]`
on an item without a `start` key (or a non-dict item). -/
def renderEventLine (ev : JValue) : Option String :=
  match ev with
  | .obj _ =>
    match jLookup ev "start" with
    | none => none
    | some startV =>
      let st := jGetD startV "dateTime" (jGetD startV "date" JValue.null)
      some (" • " ++ jPyStr st ++ " — " ++ jPyStr (jGetD ev "summary" (.str "(no title)")))
  | _ => none

def renderEventLines : List JValue → Option (List String)
  | [] => some []
  | ev :: evs =>
    match renderEventLine ev with
    | none => none
    | some line =>
      match renderEventLines evs with
      | none => none
      | some lines => some (line :: lines)

/-- Embedding of `fetch_events_for_date`.  `date_dt + timedelta(days=1)`
is the checked `addOneDay`; its `OverflowError` (possible because
`prompt_date` accepts `9999-12-31`) escapes uncaught.  The result of
the gateway call is read with `result.get("items", [])`, so an error
dict and an empty day are treated alike. -/
def fetch_events_for_date (o : Oracle) (date_dt : DateTime) : MenuRun :=
  let start := isoformat date_dt
  match addOneDay date_dt with
  | none => ⟨.pyError, [], []⟩
  | some d2 =>
    let endS := isoformat d2
    let params := JValue.obj
      [("calendarId", .str "primary"), ("timeMin", .str start), ("timeMax", .str endS),
       ("singleEvents", .bool true), ("orderBy", .str "startTime")]
    let (result, effs) := calendar_api_call o "events" "list" params
    let items := jGetD result "items" (JValue.arr [])
    if !(jTruthy items) then
      ⟨.done, ["No events found on " ++ renderDate date_dt.date ++ "."], effs⟩
    else
      match items with
      | .arr evs =>
        match renderEventLines evs with
        | none => ⟨.pyError, ["Events on " ++ renderDate date_dt.date ++ ":"], effs⟩
        | some lines =>
          ⟨.done, ("Events on " ++ renderDate date_dt.date ++ ":") :: lines, effs⟩
      | _ => ⟨.pyError, ["Events on " ++ renderDate date_dt.date ++ ":"], effs⟩

/-- How one run of `insert_event` ended. -/
inductive InsertOutcome where
  /-- `"Invalid date/time. Aborting insert."` and an early return -/
  | invalidDatetime
  /-- the gateway response had a truthy `id` -/
  | created
  /-- the gateway response had no truthy `id` -/
  | failed
  /-- an exception escaped uncaught -/
  | pyError
  /-- the input script ran out mid-operation -/
  | noInput
deriving DecidableEq

structure InsertRun where
  outcome : InsertOutcome
  logs : List String
  effs : List Eff

/-- Embedding of `insert_event`.  The five prompts consume five script
entries, then `prompt_emails` consumes more.  The try/except around
`datetime.fromisoformat(...)` and `dt_start + timedelta(hours=1)` maps
any of their failures to the abort branch.  `astimezone(timezone.utc)`
interprets the naive parsed datetime in the machine's local timezone
and converts it to UTC; the conversion is the parameter `astz`, about
which nothing is assumed. -/
def insert_event (o : Oracle) (astz : DateTime → DateTime) :
    List String → InsertRun
  | title0 :: desc0 :: date0 :: time0 :: tz0 :: rest =>
    let title := if pyStrip title0 == "" then "No Title" else pyStrip title0
    let description := pyStrip desc0
    let date_str := pyStrip date0
    let time_str := pyStrip time0
    let tz := if pyStrip tz0 == "" then "UTC" else pyStrip tz0
    match (parseDateTime (date_str ++ "T" ++ time_str)).map astz with
    | none => ⟨.invalidDatetime, ["Invalid date/time. Aborting insert."], []⟩
    | some dt_start =>
      match addOneHour dt_start with
      | none => ⟨.invalidDatetime, ["Invalid date/time. Aborting insert."], []⟩
      | some dt_end =>
        match prompt_emails rest with
        | none => ⟨.noInput, [], []⟩
        | some (attendees, _) =>
          let body := JValue.obj
            [("summary", .str title), ("description", .str description),
             ("start", .obj [("dateTime", .str (isoformat dt_start)), ("timeZone", .str tz)]),
             ("end", .obj [("dateTime", .str (isoformat dt_end)), ("timeZone", .str tz)]),
             ("attendees", JValue.arr attendees)]
          let params := JValue.obj [("calendarId", .str "primary"), ("body", body)]
          let (resp, effs) := calendar_api_call o "events" "insert" params
          if jTruthy (jGetD resp "id" JValue.null) then
            match jLookup resp "htmlLink" with
            | some l => ⟨.created, ["✅ Event created: " ++ jPyStr l], effs⟩
            | none => ⟨.pyError, [], effs⟩
          else
            ⟨.failed, ["Failed to create event: " ++ pyRepr resp], effs⟩
  | _ => ⟨.noInput, [], []⟩

end Traditional

/-! ## Concrete fixtures used by the witnesses and counterexamples -/

/-- A loaded, valid, unexpired credential. -/
def okCreds : Creds := ⟨true, false, true⟩

/-- Credential world where a valid token file is present. -/
def authOk : AuthOracle :=
  ⟨true, .ok okCreds, fun c => .ok c, .ok okCreds, fun _ => .ok (), .ok ()⟩

/-- Credential world with no token file and a user who denies consent
in the interactive flow. -/
def authDenied : AuthOracle :=
  ⟨false, .error "token.json missing", fun c => .ok c, .error "access_denied",
   fun _ => .ok (), .ok ()⟩

/-- The calendar service response for a day with zero events. -/
def emptyItems : JValue := JValue.obj [("items", JValue.arr [])]

/-- Gateway world: valid credentials, every request answers with zero
items. -/
def oracleEmpty : Oracle := ⟨authOk, fun _ _ _ => .ok emptyItems⟩

/-- Gateway world: valid credentials, every request raises. -/
def oracleExecFail (msg : String) : Oracle := ⟨authOk, fun _ _ _ => .error msg⟩

/-- Gateway world where building the service client raises. -/
def oracleAuthFail (msg : String) : Oracle :=
  ⟨⟨true, .ok okCreds, fun c => .ok c, .ok okCreds, fun _ => .ok (), .error msg⟩,
   fun _ _ _ => .ok emptyItems⟩

/-- Gateway world answering every request with a created event. -/
def oracleInsertOk : Oracle :=
  ⟨authOk, fun _ _ _ => .ok (JValue.obj
    [("id", .str "abc123"), ("htmlLink", .str "https://cal.example/e/abc123")])⟩

/-- A model reply requesting two tool calls; only the first one may be
dispatched. -/
def sampleCall : AiAgent.ToolCall :=
  ⟨"call_1", ⟨"calendar_api_call",
    [("resource", .str "events"), ("method", .str "list"),
     ("params", .obj [("calendarId", .str "primary")])]⟩⟩

def sampleCall2 : AiAgent.ToolCall :=
  ⟨"call_2", ⟨"calendar_api_call",
    [("resource", .str "events"), ("method", .str "delete"),
     ("params", .obj [("eventId", .str "e9")])]⟩⟩

/-- First model reply: an assistant message carrying two tool calls. -/
def sampleResp1 : AiAgent.Response :=
  ⟨[⟨⟨"assistant", none, [sampleCall, sampleCall2]⟩⟩]⟩

/-- Second model reply: plain text, no tool call. -/
def sampleResp2 : AiAgent.Response :=
  ⟨[⟨⟨"assistant", some "You have no events tomorrow.", []⟩⟩]⟩

/-! ## Theorems settling the claims -/

/-- Claim C1: for every pair (resource, method) with the resource
outside the whitelist or the method outside the variant's allowed set,
`calendar_api_call` returns exactly the error dict
`\x7b"error": "Method or resource not allowed."\x7d` with an empty
side-effect trace: no credential access, no network call, in either
variant. -/
theorem whitelist_rejection_no_side_effects :
    (∀ (o : Oracle) (resource method : String) (params : JValue),
      (AiAgent.ALLOWED_RESOURCES.contains resource = false ∨
       AiAgent.ALLOWED_METHODS.contains method = false) →
      AiAgent.calendar_api_call o resource method params =
        (errDict "Method or resource not allowed.", [])) ∧
    (∀ (o : Oracle) (resource method : String) (params : JValue),
      (Traditional.ALLOWED_RESOURCES.contains resource = false ∨
       Traditional.ALLOWED_METHODS.contains method = false) →
      Traditional.calendar_api_call o resource method params =
        (errDict "Method or resource not allowed.", [])) := by
  constructor
  · intro o resource method params h
    have hc : (!(AiAgent.ALLOWED_RESOURCES.contains resource) ||
        !(AiAgent.ALLOWED_METHODS.contains method)) = true := by
      rcases h with h | h
      · rw [h]
        rfl
      · rw [h]
        cases AiAgent.ALLOWED_RESOURCES.contains resource <;> rfl
    simp only [AiAgent.calendar_api_call]
    rw [if_pos hc]
  · intro o resource method params h
    have hc : (!(Traditional.ALLOWED_RESOURCES.contains resource) ||
        !(Traditional.ALLOWED_METHODS.contains method)) = true := by
      rcases h with h | h
      · rw [h]
        rfl
      · rw [h]
        cases Traditional.ALLOWED_RESOURCES.contains resource <;> rfl
    simp only [Traditional.calendar_api_call]
    rw [if_pos hc]

/-- Witness for C1 at concrete inputs: an off-whitelist resource in the
conversational variant and a method allowed only conversationally
(`update`) in the menu variant. -/
theorem whitelist_rejection_no_side_effects_witness :
    AiAgent.calendar_api_call oracleEmpty "calendars" "list" JValue.null =
      (errDict "Method or resource not allowed.", []) ∧
    Traditional.calendar_api_call oracleEmpty "events" "update" JValue.null =
      (errDict "Method or resource not allowed.", []) :=
  ⟨whitelist_rejection_no_side_effects.1 oracleEmpty "calendars" "list" JValue.null
     (Or.inl rfl),
   whitelist_rejection_no_side_effects.2 oracleEmpty "events" "update" JValue.null
     (Or.inr rfl)⟩

/-- Claim C2: once the whitelist passes, `calendar_api_call` never
raises: an exception during service-client construction
(`get_calendar_service` / `build`) or during request execution is
caught and converted to `\x7b"error": str(e)\x7d`, in either variant.
The embedding returns a plain value in every case, and each failure
point yields exactly the error dict of the exception's message. -/
theorem gateway_catches_all_exceptions :
    (∀ (o : Oracle) (resource method : String) (params : JValue) (e : String),
      AiAgent.ALLOWED_RESOURCES.contains resource = true →
      AiAgent.ALLOWED_METHODS.contains method = true →
      (get_calendar_service o.auth = .error e →
        AiAgent.calendar_api_call o resource method params = (errDict e, [.credAccess])) ∧
      (∀ kw, params = .obj kw → get_calendar_service o.auth = .ok () →
        o.execute resource method kw = .error e →
        AiAgent.calendar_api_call o resource method params =
          (errDict e, [.credAccess, .netCall resource method kw]))) ∧
    (∀ (o : Oracle) (resource method : String) (params : JValue) (e : String),
      Traditional.ALLOWED_RESOURCES.contains resource = true →
      Traditional.ALLOWED_METHODS.contains method = true →
      (get_calendar_service o.auth = .error e →
        Traditional.calendar_api_call o resource method params =
          (errDict e, [.credAccess])) ∧
      (∀ kw, params = .obj kw → get_calendar_service o.auth = .ok () →
        o.execute resource method kw = .error e →
        Traditional.calendar_api_call o resource method params =
          (errDict e, [.credAccess, .netCall resource method kw]))) := by
  constructor
  · intro o resource method params e hr hm
    have hc : ¬((!(AiAgent.ALLOWED_RESOURCES.contains resource) ||
        !(AiAgent.ALLOWED_METHODS.contains method)) = true) := by
      rw [hr, hm]
      exact Bool.false_ne_true
    constructor
    · intro hsvc
      simp only [AiAgent.calendar_api_call]
      rw [if_neg hc, hsvc]
    · intro kw hkw hsvc hex
      subst hkw
      simp only [AiAgent.calendar_api_call]
      rw [if_neg hc, hsvc, hex]
  · intro o resource method params e hr hm
    have hc : ¬((!(Traditional.ALLOWED_RESOURCES.contains resource) ||
        !(Traditional.ALLOWED_METHODS.contains method)) = true) := by
      rw [hr, hm]
      exact Bool.false_ne_true
    constructor
    · intro hsvc
      simp only [Traditional.calendar_api_call]
      rw [if_neg hc, hsvc]
    · intro kw hkw hsvc hex
      subst hkw
      simp only [Traditional.calendar_api_call]
      rw [if_neg hc, hsvc, hex]

/-- Witness for C2: a failing client construction in the conversational
variant and a failing request execution in the menu variant, each at a
concrete whitelisted pair. -/
theorem gateway_catches_all_exceptions_witness :
    AiAgent.calendar_api_call (oracleAuthFail "boom") "events" "update" (.obj []) =
      (errDict "boom", [.credAccess]) ∧
    Traditional.calendar_api_call (oracleExecFail "HttpError 403") "events" "list"
        (.obj []) =
      (errDict "HttpError 403", [.credAccess, .netCall "events" "list" []]) :=
  ⟨(gateway_catches_all_exceptions.1 (oracleAuthFail "boom") "events" "update"
      (.obj []) "boom" rfl rfl).1 rfl,
   (gateway_catches_all_exceptions.2 (oracleExecFail "HttpError 403") "events" "list"
      (.obj []) "HttpError 403" rfl rfl).2 [] rfl rfl rfl⟩

/-- Claim C3: whenever `get_calendar_service` reaches the interactive
authorization flow (no token file, or a loaded credential that is
neither valid nor refreshable) and that flow fails — network error or
user denial — the exception propagates out of the Credential Store
uncaught: there is no try/except in `get_calendar_service`, so its
result is exactly that error. -/
theorem interactive_flow_failure_propagates (o : AuthOracle) (e : String)
    (hbranch : o.tokenFileExists = false ∨
      ∃ c, o.loadFile = .ok c ∧ c.valid = false ∧ (c.expired && c.refresh_token) = false)
    (hflow : o.interactiveFlow = .error e) :
    get_calendar_service o = .error e := by
  rcases hbranch with h | ⟨c, hl, hv, hr⟩
  · simp [get_calendar_service, h, hflow]
  · cases htf : o.tokenFileExists <;>
      simp [get_calendar_service, htf, hl, hv, hr, hflow]

/-- Witness for C3: no token file on disk and a user who denies
consent. -/
theorem interactive_flow_failure_propagates_witness :
    get_calendar_service authDenied = .error "access_denied" :=
  interactive_flow_failure_propagates authDenied "access_denied" (Or.inl rfl) rfl

/-- Claim C4: in a conversational turn whose first model reply contains
a tool call and whose second reply (after tool-result injection) is
plain text with no tool call, `process_response` returns the second
reply's text, and exactly two messages are appended to the history
between the two model invocations — the assistant message carrying the
tool calls and a tool message carrying the call id and the
JSON-encoded tool result; only the first tool call of the reply is
extracted and dispatched, so the accumulated gateway side effects are
exactly those of dispatching that first call. -/
theorem driver_tool_round (o : Oracle) (resp1 resp2 : AiAgent.Response)
    (hist : List AiAgent.Msg) (c : AiAgent.Choice) (call : AiAgent.ToolCall)
    (tcs : List AiAgent.ToolCall) (result : JValue) (newEffs : List Eff)
    (ch2 : AiAgent.Choice) (rest2 : List AiAgent.Choice) (txt : String)
    (h1 : AiAgent.findToolChoice resp1 = some c)
    (h2 : c.message.tool_calls = call :: tcs)
    (h3 : AiAgent.call_function o call.function.name call.function.arguments =
      .ok (result, newEffs))
    (h4 : AiAgent.findToolChoice resp2 = none)
    (h5 : resp2.choices = ch2 :: rest2)
    (h6 : ch2.message.content = some txt) :
    AiAgent.process_response o resp1 hist [] [resp2] =
      .final txt
        (hist ++ [AiAgent.Msg.assistantCall "" c.message.tool_calls,
                  AiAgent.Msg.toolResult call.function.name call.id (dumps result)])
        newEffs := by
  simp only [AiAgent.process_response, h1, h2, h3, h4, h5, h6, List.nil_append,
    Option.getD_some]

/-- Witness for C4 at a concrete turn: the first reply carries two tool
calls (list then delete); the driver dispatches only the list call,
appends the two messages, and returns the second reply's text. -/
theorem driver_tool_round_witness :
    AiAgent.process_response oracleEmpty sampleResp1 [] [] [sampleResp2] =
      .final "You have no events tomorrow."
        [AiAgent.Msg.assistantCall "" [sampleCall, sampleCall2],
         AiAgent.Msg.toolResult "calendar_api_call" "call_1" (dumps emptyItems)]
        [.credAccess, .netCall "events" "list" [("calendarId", .str "primary")]] :=
  driver_tool_round oracleEmpty sampleResp1 sampleResp2 []
    ⟨⟨"assistant", none, [sampleCall, sampleCall2]⟩⟩ sampleCall [sampleCall2]
    emptyItems [.credAccess, .netCall "events" "list" [("calendarId", .str "primary")]]
    ⟨⟨"assistant", some "You have no events tomorrow.", []⟩⟩ []
    "You have no events tomorrow." rfl rfl rfl rfl rfl rfl

/-- Helper: a successful whitelisted menu-gateway call returns its
response with the credential-access and network-call trace. -/
theorem trad_gateway_ok (o : Oracle) (m : String) (kvs : List (String × JValue))
    (v : JValue)
    (hm : Traditional.ALLOWED_METHODS.contains m = true)
    (hauth : get_calendar_service o.auth = .ok ())
    (hexec : o.execute "events" m kvs = .ok v) :
    Traditional.calendar_api_call o "events" m (.obj kvs) =
      (v, [.credAccess, .netCall "events" m kvs]) := by
  have hc : ¬((!(Traditional.ALLOWED_RESOURCES.contains "events") ||
      !(Traditional.ALLOWED_METHODS.contains m)) = true) := by
    rw [hm]
    decide
  simp only [Traditional.calendar_api_call]
  rw [if_neg hc, hauth, hexec]

/-- Helper: a whitelisted menu-gateway call on a dict argument leaves a
trace of either just the credential access (client construction
raised) or the credential access plus exactly one network call. -/
theorem trad_gateway_effs (o : Oracle) (m : String) (kvs : List (String × JValue))
    (hm : Traditional.ALLOWED_METHODS.contains m = true) :
    (Traditional.calendar_api_call o "events" m (.obj kvs)).2 = [.credAccess] ∨
    (Traditional.calendar_api_call o "events" m (.obj kvs)).2 =
      [.credAccess, .netCall "events" m kvs] := by
  have hc : ¬((!(Traditional.ALLOWED_RESOURCES.contains "events") ||
      !(Traditional.ALLOWED_METHODS.contains m)) = true) := by
    rw [hm]
    decide
  simp only [Traditional.calendar_api_call]
  rw [if_neg hc]
  cases get_calendar_service o.auth with
  | error e => left; rfl
  | ok u =>
    cases o.execute "events" m kvs with
    | error e => right; rfl
    | ok v => right; rfl

/-- Counterexample to claim C5 as stated: in the menu variant a
malformed start time does abandon a menu operation.  With a valid
date and the start time `99:99`, `insert_event` logs
`"Invalid date/time. Aborting insert."` and returns — the insert is
abandoned, not reprompted (and no gateway call is made). -/
theorem insert_aborted_by_malformed_time :
    Traditional.insert_event oracleEmpty id ["Standup", "", "2025-07-06", "99:99", "UTC"] =
      ⟨.invalidDatetime, ["Invalid date/time. Aborting insert."], []⟩ := rfl

/-- Claim C5 (amended): malformed dates at the fetch prompt and
malformed attendee emails are handled by reprompting and never
propagate; a malformed date or start time in the insert operation also
never propagates — it is caught — but it aborts that insert with an
error message instead of reprompting. -/
theorem menu_input_validation_behaviour :
    (∀ (s : String) (rest : List String),
      (Traditional.dateRegexMatch (pyStrip s) = false ∨ parseDate (pyStrip s) = none) →
      Traditional.prompt_date (s :: rest) = Traditional.prompt_date rest) ∧
    (∀ (raw : String) (rest : List String),
      (pyStrip raw == "") = false →
      (((pySplit (pyStrip raw) ',').map pyStrip).all Traditional.emailRegexMatch) = false →
      Traditional.prompt_emails (raw :: rest) = Traditional.prompt_emails rest) ∧
    (∀ (o : Oracle) (astz : DateTime → DateTime) (t d ds ts tz : String)
        (rest : List String),
      parseDateTime (pyStrip ds ++ "T" ++ pyStrip ts) = none →
      Traditional.insert_event o astz (t :: d :: ds :: ts :: tz :: rest) =
        ⟨.invalidDatetime, ["Invalid date/time. Aborting insert."], []⟩) := by
  refine ⟨?_, ?_, ?_⟩
  · intro s rest h
    rcases h with h | h
    · simp [Traditional.prompt_date, h]
    · cases hr : Traditional.dateRegexMatch (pyStrip s) <;>
        simp [Traditional.prompt_date, hr, h]
  · intro raw rest h1 h2
    simp [Traditional.prompt_emails, h1, h2]
  · intro o astz t d ds ts tz rest hp
    simp [Traditional.insert_event, hp]

/-- Witness for amended C5: an out-of-range date at the fetch prompt is
retried, an invalid email list is retried, and an unparsable insert
date aborts the insert. -/
theorem menu_input_validation_behaviour_witness :
    Traditional.prompt_date ["2025-13-45", "2025-07-06"] =
      Traditional.prompt_date ["2025-07-06"] ∧
    Traditional.prompt_emails ["bob@@x", "bob@x.io"] =
      Traditional.prompt_emails ["bob@x.io"] ∧
    Traditional.insert_event oracleEmpty id ["T", "", "not-a-date", "10:00", "UTC"] =
      ⟨.invalidDatetime, ["Invalid date/time. Aborting insert."], []⟩ :=
  ⟨menu_input_validation_behaviour.1 "2025-13-45" ["2025-07-06"] (Or.inr rfl),
   menu_input_validation_behaviour.2.1 "bob@@x" ["bob@x.io"] rfl rfl,
   menu_input_validation_behaviour.2.2 oracleEmpty id "T" "" "not-a-date" "10:00" "UTC"
     [] rfl⟩

/-- Helper: the calendar successor of a representable date other than
9999-12-31 is still representable. -/
theorem next_year_le_of_ne_max (d : Date) (hv : validDate d = true)
    (hne : d ≠ ⟨9999, 12, 31⟩) : d.next.year ≤ 9999 := by
  have h2 : d.year ≤ 9999 := by
    simp [validDate] at hv
    tauto
  have h4 : d.month ≤ 12 := by
    simp [validDate] at hv
    tauto
  have h6 : d.day ≤ daysInMonth d.year d.month := by
    simp [validDate] at hv
    tauto
  unfold Date.next
  split
  · exact h2
  · split
    · exact h2
    · rename_i hday hmonth
      have hm12 : d.month = 12 := by omega
      have hdim : daysInMonth d.year d.month = 31 := by
        rw [hm12]
        rfl
      have hday31 : d.day = 31 := by omega
      have hy : d.year ≠ 9999 := by
        intro hy9
        apply hne
        cases d
        simp_all
      show d.year + 1 ≤ 9999
      omega

/-- Counterexample to claim C6 as stated: `9999-12-31` passes the date
prompt's validation, yet `fetch_events_for_date` raises
`OverflowError` computing `date + timedelta(days=1)` (Python
`datetime.max` is 9999-12-31) before any gateway call: zero list calls
are issued and no message is printed. -/
theorem fetch_overflow_on_max_date :
    Traditional.prompt_date ["9999-12-31"] = some (⟨⟨9999, 12, 31⟩, 0, 0⟩, []) ∧
    Traditional.fetch_events_for_date oracleEmpty ⟨⟨9999, 12, 31⟩, 0, 0⟩ =
      ⟨.pyError, [], []⟩ :=
  ⟨rfl, rfl⟩

/-- Claim C6 (amended): for every validated date other than
9999-12-31, with the gateway returning zero items, the menu fetch
issues exactly one `list` call whose parameters put `timeMin` at the
date's midnight UTC and `timeMax` at the next day's midnight UTC, and
prints exactly the one message `"No events found on <date>."`. -/
theorem fetch_zero_items_single_call (o : Oracle) (d : Date)
    (hv : validDate d = true) (hne : d ≠ ⟨9999, 12, 31⟩)
    (hauth : get_calendar_service o.auth = .ok ())
    (hexec : o.execute "events" "list"
      [("calendarId", .str "primary"),
       ("timeMin", .str (isoformat ⟨d, 0, 0⟩)),
       ("timeMax", .str (isoformat ⟨d.next, 0, 0⟩)),
       ("singleEvents", .bool true), ("orderBy", .str "startTime")] = .ok emptyItems) :
    Traditional.fetch_events_for_date o ⟨d, 0, 0⟩ =
      ⟨.done, ["No events found on " ++ renderDate d ++ "."],
       [.credAccess, .netCall "events" "list"
         [("calendarId", .str "primary"),
          ("timeMin", .str (isoformat ⟨d, 0, 0⟩)),
          ("timeMax", .str (isoformat ⟨d.next, 0, 0⟩)),
          ("singleEvents", .bool true), ("orderBy", .str "startTime")]]⟩ := by
  have hadd : addOneDay ⟨d, 0, 0⟩ = some ⟨d.next, 0, 0⟩ := by
    simp [addOneDay, next_year_le_of_ne_max d hv hne]
  have hcall := trad_gateway_ok o "list"
    [("calendarId", .str "primary"),
     ("timeMin", .str (isoformat ⟨d, 0, 0⟩)),
     ("timeMax", .str (isoformat ⟨d.next, 0, 0⟩)),
     ("singleEvents", .bool true), ("orderBy", .str "startTime")] emptyItems
    rfl hauth hexec
  simp only [Traditional.fetch_events_for_date, hadd, hcall]
  rfl

/-- Witness for amended C6 at the spec's own scenario: date
`2025-07-06`, gateway mocked to return zero items. -/
theorem fetch_zero_items_single_call_witness :
    Traditional.fetch_events_for_date oracleEmpty ⟨⟨2025, 7, 6⟩, 0, 0⟩ =
      ⟨.done, ["No events found on 2025-07-06."],
       [.credAccess, .netCall "events" "list"
         [("calendarId", .str "primary"),
          ("timeMin", .str "2025-07-06T00:00:00+00:00"),
          ("timeMax", .str "2025-07-07T00:00:00+00:00"),
          ("singleEvents", .bool true), ("orderBy", .str "startTime")]]⟩ :=
  fetch_zero_items_single_call oracleEmpty ⟨2025, 7, 6⟩ rfl (by decide) rfl rfl

/-- Claim C7: in the menu insert operation, whenever the user's title
answer is blank after stripping and the date/time answers parse, the
gateway trace of the run is either the credential access alone (client
construction raised) or the credential access followed by exactly one
insert call whose body carries the summary `"No Title"`, a start equal
to the parsed (UTC-converted) start time, and an end equal to that
start plus exactly one hour. -/
theorem insert_no_title_default_one_hour_end (o : Oracle) (astz : DateTime → DateTime)
    (title desc ds ts tz : String) (rest : List String)
    (dt dt_end : DateTime) (atts : List JValue) (rest2 : List String)
    (htitle : pyStrip title = "")
    (hparse : parseDateTime (pyStrip ds ++ "T" ++ pyStrip ts) = some dt)
    (hhour : addOneHour (astz dt) = some dt_end)
    (hmails : Traditional.prompt_emails rest = some (atts, rest2)) :
    (Traditional.insert_event o astz (title :: desc :: ds :: ts :: tz :: rest)).effs =
        [.credAccess] ∨
    (Traditional.insert_event o astz (title :: desc :: ds :: ts :: tz :: rest)).effs =
      [.credAccess, .netCall "events" "insert"
        [("calendarId", .str "primary"),
         ("body", JValue.obj
           [("summary", .str "No Title"), ("description", .str (pyStrip desc)),
            ("start", .obj [("dateTime", .str (isoformat (astz dt))),
              ("timeZone", .str (if pyStrip tz == "" then "UTC" else pyStrip tz))]),
            ("end", .obj [("dateTime", .str (isoformat dt_end)),
              ("timeZone", .str (if pyStrip tz == "" then "UTC" else pyStrip tz))]),
            ("attendees", JValue.arr atts)])]] := by
  have heffs := trad_gateway_effs o "insert"
    [("calendarId", .str "primary"),
     ("body", JValue.obj
       [("summary", .str "No Title"), ("description", .str (pyStrip desc)),
        ("start", .obj [("dateTime", .str (isoformat (astz dt))),
          ("timeZone", .str (if pyStrip tz == "" then "UTC" else pyStrip tz))]),
        ("end", .obj [("dateTime", .str (isoformat dt_end)),
          ("timeZone", .str (if pyStrip tz == "" then "UTC" else pyStrip tz))]),
        ("attendees", JValue.arr atts)])] rfl
  simp only [Traditional.insert_event, htitle, hparse, Option.map_some', hhour, hmails,
    beq_self_eq_true, eq_self_iff_true, if_true]
  rcases hcall : Traditional.calendar_api_call o "events" "insert"
    (.obj [("calendarId", .str "primary"),
      ("body", JValue.obj
        [("summary", .str "No Title"), ("description", .str (pyStrip desc)),
         ("start", .obj [("dateTime", .str (isoformat (astz dt))),
           ("timeZone", .str (if pyStrip tz == "" then "UTC" else pyStrip tz))]),
         ("end", .obj [("dateTime", .str (isoformat dt_end)),
           ("timeZone", .str (if pyStrip tz == "" then "UTC" else pyStrip tz))]),
         ("attendees", JValue.arr atts)])]) with ⟨resp, effs⟩
  rw [hcall] at heffs
  simp only [hcall]
  split <;> (try split) <;> simp_all

/-- Witness for C7: blank title (whitespace answer), start 10:00 on
2025-07-06, identity timezone conversion, no attendees, gateway
answering with a created event. -/
theorem insert_no_title_default_one_hour_end_witness :
    (Traditional.insert_event oracleInsertOk id
        ["  ", "sync", "2025-07-06", "10:00", "", ""]).effs = [.credAccess] ∨
    (Traditional.insert_event oracleInsertOk id
        ["  ", "sync", "2025-07-06", "10:00", "", ""]).effs =
      [.credAccess, .netCall "events" "insert"
        [("calendarId", .str "primary"),
         ("body", JValue.obj
           [("summary", .str "No Title"), ("description", .str "sync"),
            ("start", .obj [("dateTime", .str "2025-07-06T10:00:00+00:00"),
              ("timeZone", .str "UTC")]),
            ("end", .obj [("dateTime", .str "2025-07-06T11:00:00+00:00"),
              ("timeZone", .str "UTC")]),
            ("attendees", JValue.arr [])])]] :=
  insert_no_title_default_one_hour_end oracleInsertOk id "  " "sync" "2025-07-06"
    "10:00" "" [""] ⟨⟨2025, 7, 6⟩, 10, 0⟩ ⟨⟨2025, 7, 6⟩, 11, 0⟩ [] [] rfl rfl rfl rfl

/-- Claim C8: the email validation rejects `bob@@x` and `bob` and
accepts `bob@example.org`; a non-blank comma-separated answer whose
stripped entries all validate yields exactly those entries' attendee
dicts in input order; any invalid entry causes a full reprompt; and no
list `prompt_emails` ever returns contains an entry that did not
validate (no partial list). -/
theorem email_validation_and_attendee_list :
    Traditional.emailRegexMatch "bob@@x" = false ∧
    Traditional.emailRegexMatch "bob" = false ∧
    Traditional.emailRegexMatch "bob@example.org" = true ∧
    (∀ (raw : String) (rest : List String),
      (pyStrip raw == "") = false →
      (((pySplit (pyStrip raw) ',').map pyStrip).all Traditional.emailRegexMatch) = true →
      Traditional.prompt_emails (raw :: rest) =
        some (((pySplit (pyStrip raw) ',').map pyStrip).map Traditional.mkAttendee, rest)) ∧
    (∀ (raw : String) (rest : List String),
      (pyStrip raw == "") = false →
      (((pySplit (pyStrip raw) ',').map pyStrip).all Traditional.emailRegexMatch) = false →
      Traditional.prompt_emails (raw :: rest) = Traditional.prompt_emails rest) ∧
    (∀ (script : List String) (out : List JValue) (rest : List String),
      Traditional.prompt_emails script = some (out, rest) →
      ∀ v ∈ out, ∃ e, v = Traditional.mkAttendee e ∧
        Traditional.emailRegexMatch e = true) := by
  refine ⟨rfl, rfl, rfl, ?_, ?_, ?_⟩
  · intro raw rest h1 h2
    simp [Traditional.prompt_emails, h1, h2]
  · intro raw rest h1 h2
    simp [Traditional.prompt_emails, h1, h2]
  · intro script
    induction script with
    | nil =>
      intro out rest h
      simp [Traditional.prompt_emails] at h
    | cons raw0 rest0 ih =>
      intro out rest h
      by_cases hb : (pyStrip raw0 == "") = true
      · simp [Traditional.prompt_emails, hb] at h
        rcases h with ⟨h1, h2⟩
        subst h1
        intro v hv
        simp at hv
      · cases hall : (((pySplit (pyStrip raw0) ',').map pyStrip).all
            Traditional.emailRegexMatch) with
        | false =>
          simp [Traditional.prompt_emails, hb, hall] at h
          exact ih out rest h
        | true =>
          simp [Traditional.prompt_emails, hb, hall] at h
          rcases h with ⟨h1, h2⟩
          subst h1
          intro v hv
          rcases List.mem_map.mp hv with ⟨e, he, rfl⟩
          exact ⟨pyStrip e, rfl,
            List.all_eq_true.mp hall (pyStrip e) (List.mem_map_of_mem pyStrip he)⟩

/-- Witness for C8: a two-email list yields two attendee entries in
order; a list with one bad entry is fully reprompted; and an entry of
a returned list validates. -/
theorem email_validation_and_attendee_list_witness :
    Traditional.prompt_emails ["alice@a.io, bob@b.io"] =
      some ([Traditional.mkAttendee "alice@a.io", Traditional.mkAttendee "bob@b.io"],
        []) ∧
    Traditional.prompt_emails ["bob@@x, ok@a.io", "c@d.io"] =
      Traditional.prompt_emails ["c@d.io"] ∧
    (∃ e, Traditional.mkAttendee "a@b.c" = Traditional.mkAttendee e ∧
      Traditional.emailRegexMatch e = true) :=
  ⟨email_validation_and_attendee_list.2.2.2.1 "alice@a.io, bob@b.io" [] rfl rfl,
   email_validation_and_attendee_list.2.2.2.2.1 "bob@@x, ok@a.io" ["c@d.io"] rfl rfl,
   email_validation_and_attendee_list.2.2.2.2.2 ["a@b.c"]
     [Traditional.mkAttendee "a@b.c"] [] rfl (Traditional.mkAttendee "a@b.c")
     (List.mem_singleton.mpr rfl)⟩

/-- Claim C9: when the gateway's `list` result is an error mapping — a
dict holding `"error"` and no `"items"` key — `fetch_events_for_date`
prints the very same single `"No events found on <date>."` message as
for a day with zero events: a failed list call is indistinguishable to
the user from an empty day. -/
theorem gateway_error_prints_no_events (o : Oracle) (dt d2 : DateTime)
    (result : JValue) (effs : List Eff)
    (hadd : addOneDay dt = some d2)
    (hcall : Traditional.calendar_api_call o "events" "list"
      (.obj [("calendarId", .str "primary"), ("timeMin", .str (isoformat dt)),
             ("timeMax", .str (isoformat d2)), ("singleEvents", .bool true),
             ("orderBy", .str "startTime")]) = (result, effs))
    (herr : (jLookup result "error").isSome = true)
    (hitems : jLookup result "items" = none) :
    Traditional.fetch_events_for_date o dt =
      ⟨.done, ["No events found on " ++ renderDate dt.date ++ "."], effs⟩ := by
  simp only [Traditional.fetch_events_for_date, hadd, hcall, jGetD, hitems]
  rfl

/-- Witness for C9: the service raises an HTTP error; the user sees
exactly the empty-day message for 2025-07-06. -/
theorem gateway_error_prints_no_events_witness :
    Traditional.fetch_events_for_date (oracleExecFail "HttpError 403")
        ⟨⟨2025, 7, 6⟩, 0, 0⟩ =
      ⟨.done, ["No events found on 2025-07-06."],
       [.credAccess, .netCall "events" "list"
         [("calendarId", .str "primary"),
          ("timeMin", .str "2025-07-06T00:00:00+00:00"),
          ("timeMax", .str "2025-07-07T00:00:00+00:00"),
          ("singleEvents", .bool true), ("orderBy", .str "startTime")]]⟩ :=
  gateway_error_prints_no_events (oracleExecFail "HttpError 403")
    ⟨⟨2025, 7, 6⟩, 0, 0⟩ ⟨⟨2025, 7, 7⟩, 0, 0⟩ (errDict "HttpError 403")
    [.credAccess, .netCall "events" "list"
      [("calendarId", .str "primary"),
       ("timeMin", .str "2025-07-06T00:00:00+00:00"),
       ("timeMax", .str "2025-07-07T00:00:00+00:00"),
       ("singleEvents", .bool true), ("orderBy", .str "startTime")]]
    rfl rfl rfl rfl

/-- Claim C10: the Dispatcher's keyword expansion
`calendar_api_call(**args)` is outside the gateway's try/except: an
argument mapping missing the `params` key, or one holding an extra
key, makes `call_function` raise `TypeError` instead of returning a
value. -/
theorem dispatcher_kwargs_type_error :
    (∃ msg, AiAgent.call_function oracleEmpty "calendar_api_call"
      [("resource", .str "events"), ("method", .str "list")] =
        .error (.typeError msg)) ∧
    (∃ msg, AiAgent.call_function oracleEmpty "calendar_api_call"
      [("resource", .str "events"), ("method", .str "list"), ("params", .obj []),
       ("recurrence", .str "weekly")] = .error (.typeError msg)) :=
  ⟨⟨"calendar_api_call() missing required positional arguments", rfl⟩,
   ⟨"calendar_api_call() got an unexpected keyword argument \x27recurrence\x27", rfl⟩⟩
